import Mathlib

/-!
Verification development for the two-tier Go API / React client deployment.

Server side: src/go-api/main.go registers a constant-text handler on the
pattern "/" of the Go default ServeMux, wraps the mux in the rs/cors
middleware configured with all origins allowed, and listens on port 8080.
The Kubernetes descriptors under src/k8s bind the logical name
go-api-service to that port.

Client side: src/unnamed/part_000 is the React App component. It holds one
piece of state (useState, starting at the empty string), issues a single
fetch from a mount effect (useEffect with an empty dependency list), commits
the response text to the state on resolution, and renders the state or a
Loading placeholder when the state is the empty string.
-/

/-- HTTP request as the Go net/http server sees it: method, URL path, and
the cross-origin request headers consulted by the CORS layer. No request
body is consumed anywhere in the program. -/
structure HttpRequest where
  method : String
  path : String
  origin : Option String
  accessControlRequestMethod : Option String
deriving DecidableEq

/-- HTTP response: status code, body text and response headers. -/
structure HttpResponse where
  status : Nat
  body : String
  headers : List (String × String)
deriving DecidableEq

/-- Value of the first response header with the given name, if any. -/
def headerValue (hs : List (String × String)) (k : String) : Option String :=
  (hs.find? (fun p => p.1 == k)).map (fun p => p.2)

/-- Body written by the root handler in src/go-api/main.go. -/
def helloBody : String := "Hello from Go API!"

/-- The root handler (src/go-api/main.go, func handler): writes the constant
text with fmt.Fprintf. Go net/http sends an implicit 200 status on the first
write when WriteHeader was not called, and the handler sets no headers. -/
def handler (_ : HttpRequest) : HttpResponse :=
  { status := 200, body := helloBody, headers := [] }

/-- Pattern under which the handler is registered (the http.HandleFunc call
in main). -/
def rootPattern : String := "/"

/-- Go net/http ServeMux pattern matching: a pattern ending in a slash is a
subtree pattern and matches every path it is a prefix of; any other pattern
matches only the identical path. -/
def patternMatches (pat path : String) : Bool :=
  if pat.data.getLast? == some '/' then pat.data.isPrefixOf path.data
  else pat == path

/-- Response the Go DefaultServeMux produces when no registered pattern
matches the request path. -/
def notFoundResponse : HttpResponse :=
  { status := 404, body := "404 page not found\n", headers := [] }

/-- The default ServeMux carrying the single registration made in main: the
pattern "/" mapped to handler. -/
def defaultServeMux (req : HttpRequest) : HttpResponse :=
  if patternMatches rootPattern req.path then handler req else notFoundResponse

/-- CORS policy options, the fields of the cors.Options literal passed to
cors.New in src/go-api/main.go. -/
structure CorsOptions where
  allowedOrigins : List String
  allowedMethods : List String
  allowedHeaders : List String
deriving DecidableEq

/-- The options literal from main: all origins, five methods, one header. -/
def corsOptions : CorsOptions :=
  { allowedOrigins := ["*"]
  , allowedMethods := ["GET", "POST", "PUT", "DELETE", "OPTIONS"]
  , allowedHeaders := ["Content-Type"] }

/-- Modelled from the spec: the value of the allowed-origins policy header.
The github.com/rs/cors middleware code is not part of this repository; per
the spec (section 8), for all origins the response carries the star value
when star is among the allowed origins. -/
def allowOriginValue (opts : CorsOptions) : String :=
  if opts.allowedOrigins.contains "*" then "*" else ""

/-- Modelled from the spec: the github.com/rs/cors middleware is an external
dependency whose code is not part of this repository; only its configuration
appears in src/go-api/main.go. Per the spec (sections 4.1 and 8): a
pre-flight OPTIONS request is answered directly with a success status, an
empty body and the configured allow headers, without reaching application
logic; every other request is forwarded to the wrapped handler and the
response carries the allowed-origin header for all callers. -/
def corsMiddleware (opts : CorsOptions) (inner : HttpRequest → HttpResponse)
    (req : HttpRequest) : HttpResponse :=
  if req.method == "OPTIONS" then
    { status := 200
    , body := ""
    , headers :=
        [ ("Access-Control-Allow-Origin", allowOriginValue opts)
        , ("Access-Control-Allow-Methods", String.intercalate ", " opts.allowedMethods)
        , ("Access-Control-Allow-Headers", String.intercalate ", " opts.allowedHeaders) ] }
  else
    let r := inner req
    { r with headers := ("Access-Control-Allow-Origin", allowOriginValue opts) :: r.headers }

/-- The composed server handler built in main: the default mux wrapped by
the configured CORS middleware. -/
def handlerWithCORS : HttpRequest → HttpResponse :=
  corsMiddleware corsOptions defaultServeMux

/-- Address main listens on (the http.ListenAndServe call). -/
def listenAddr : String := ":8080"

/-- TCP port named by listenAddr. -/
def listenPort : Nat := 8080

/-- Kubernetes Service fields used by the descriptors under src/k8s. -/
structure K8sService where
  name : String
  svcType : String
  port : Nat
  targetPort : Nat
  nodePort : Option Nat
deriving DecidableEq

/-- The Service named go-api-service from src/k8s/go-deployment.yaml. -/
def goApiService : K8sService :=
  { name := "go-api-service", svcType := "NodePort"
  , port := 8080, targetPort := 8080, nodePort := some 30002 }

/-- Kubernetes Deployment fields used by the descriptors under src/k8s. -/
structure K8sDeployment where
  name : String
  replicas : Nat
  containerPort : Nat
deriving DecidableEq

/-- The Deployment named go-api from src/k8s/go-deployment.yaml. -/
def goApiDeployment : K8sDeployment :=
  { name := "go-api", replicas := 1, containerPort := 8080 }

/-- Outcome of a browser fetch call as the client observes it: the promise
rejects on a network error or a browser-level timeout, and resolves with the
response for every HTTP status — an HTTP error status is not a rejection. -/
inductive FetchOutcome where
  | networkError
  | timeout
  | response (status : Nat) (body : String)
deriving DecidableEq

/-- Target URL of the single fetch in the client (src/unnamed/part_000). -/
def fetchTarget : String := "http://go-api-service:8080"

/-- Method of that fetch: fetch with no options issues a GET. -/
def fetchMethod : String := "GET"

/-- The request the fetch target produces at the server: a GET to the root
path, since the URL has no path component, with a cross-origin Origin header
attached by the browser. -/
def fetchRequest : HttpRequest :=
  { method := "GET", path := "/", origin := some "http://react-origin"
  , accessControlRequestMethod := none }

/-- Client component state (src/unnamed/part_000, function App): the message
string from useState, whether the mount effect has run (useEffect with an
empty dependency list runs on the first render only), how many fetches are
currently in flight, and how many were ever issued. -/
structure AppState where
  message : String
  effectRan : Bool
  pending : Nat
  issued : Nat
deriving DecidableEq

/-- State at component creation: useState starts the message at the empty
string; no effect has run and no request exists. -/
def initialAppState : AppState :=
  { message := "", effectRan := false, pending := 0, issued := 0 }

/-- Events of a client session: a render (React runs the mount effect on the
first one only, the dependency list being empty), or the completion of an
in-flight fetch. -/
inductive AppEvent where
  | render
  | complete (o : FetchOutcome)
deriving DecidableEq

/-- One step of the client session. On render, the effect body runs if it
has not yet, issuing the single fetch. On completion of an in-flight fetch
the then-chain runs: res.text() followed by setMessage commits the body for
every resolved response whatever its status, since the code checks neither
res.ok nor the status; a rejected promise has no catch handler, so nothing
runs and the message is unchanged. -/
def stepApp (s : AppState) (e : AppEvent) : AppState :=
  match e with
  | AppEvent.render =>
      if s.effectRan then s
      else { s with effectRan := true, pending := s.pending + 1, issued := s.issued + 1 }
  | AppEvent.complete o =>
      if s.pending == 0 then s
      else
        { s with
            pending := s.pending - 1,
            message :=
              match o with
              | FetchOutcome.response _ body => body
              | _ => s.message }

/-- Run a client session from a state through a list of events. -/
def runApp (s : AppState) (evs : List AppEvent) : AppState :=
  evs.foldl stepApp s

/-- Rendered view (src/unnamed/part_000, the h1 element): the message or the
Loading placeholder — the empty string is the only falsy string in
JavaScript, so the placeholder shows exactly on the empty string. -/
def renderApp (message : String) : String :=
  if message == "" then "Loading..." else message

/-- The outcome the client receives from a live backend: the composed server
handler applied to the GET that fetch issues. -/
def serverOutcome : FetchOutcome :=
  FetchOutcome.response (handlerWithCORS fetchRequest).status (handlerWithCORS fetchRequest).body

/-- Session invariant: at most one request is ever issued, no more requests
are in flight than were issued, and none is issued before the mount effect
runs. -/
def AppInv (s : AppState) : Prop :=
  s.issued ≤ 1 ∧ s.pending ≤ s.issued ∧ (s.effectRan = false → s.issued = 0)

/-- A settled session state — effect run, nothing in flight — is a fixed
point of every event. -/
theorem stepApp_settled (s : AppState) (h1 : s.effectRan = true)
    (h2 : s.pending = 0) (e : AppEvent) : stepApp s e = s := by
  cases e with
  | render => simp [stepApp, h1]
  | complete o => simp [stepApp, h2]

/-- A settled session state is unchanged by any further event list. -/
theorem runApp_settled (s : AppState) (h1 : s.effectRan = true)
    (h2 : s.pending = 0) : ∀ evs : List AppEvent, runApp s evs = s := by
  intro evs
  induction evs with
  | nil => rfl
  | cons e evs ih =>
      show runApp (stepApp s e) evs = s
      rw [stepApp_settled s h1 h2 e]
      exact ih

/-- Once the mount effect has run, a step never issues another request and
the effect stays run. -/
theorem stepApp_effectRan_issued (s : AppState) (h : s.effectRan = true)
    (e : AppEvent) :
    (stepApp s e).effectRan = true ∧ (stepApp s e).issued = s.issued := by
  cases e with
  | render => simp [stepApp, h]
  | complete o =>
      simp only [stepApp]
      split
      · exact ⟨h, rfl⟩
      · exact ⟨h, rfl⟩

/-- Once the mount effect has run, no further events change the number of
issued requests. -/
theorem runApp_issued_stable (s : AppState) (h : s.effectRan = true) :
    ∀ evs : List AppEvent,
      (runApp s evs).issued = s.issued ∧ (runApp s evs).effectRan = true := by
  intro evs
  induction evs generalizing s with
  | nil => exact ⟨rfl, h⟩
  | cons e evs ih =>
      obtain ⟨he, hi⟩ := stepApp_effectRan_issued s h e
      obtain ⟨ih1, ih2⟩ := ih (stepApp s e) he
      exact ⟨ih1.trans hi, ih2⟩

/-- One step preserves the session invariant. -/
theorem stepApp_inv (s : AppState) (h : AppInv s) (e : AppEvent) :
    AppInv (stepApp s e) := by
  obtain ⟨msg, er, pen, iss⟩ := s
  obtain ⟨h1, h2, h3⟩ := h
  have h1a : iss ≤ 1 := h1
  have h2a : pen ≤ iss := h2
  cases e with
  | render =>
      cases er with
      | true => exact ⟨h1, h2, h3⟩
      | false =>
          have h0 : iss = 0 := h3 rfl
          show iss + 1 ≤ 1 ∧ pen + 1 ≤ iss + 1 ∧ (true = false → iss + 1 = 0)
          exact ⟨by omega, by omega, fun hc => nomatch hc⟩
  | complete o =>
      simp only [stepApp]
      split
      · exact ⟨h1, h2, h3⟩
      · show iss ≤ 1 ∧ pen - 1 ≤ iss ∧ (er = false → iss = 0)
        exact ⟨h1, by omega, h3⟩

/-- Every reachable session state satisfies the invariant. -/
theorem runApp_inv (s : AppState) (h : AppInv s) :
    ∀ evs : List AppEvent, AppInv (runApp s evs) := by
  intro evs
  induction evs generalizing s with
  | nil => exact h
  | cons e evs ih => exact ih (stepApp s e) (stepApp_inv s h e)

/-- C1: every HTTP request to the root path whose method is not OPTIONS (the
pre-flight exception) is answered by the composed server handler with status
200 and a body exactly equal to "Hello from Go API!". -/
theorem root_request_hello (req : HttpRequest) (hp : req.path = "/")
    (hm : req.method ≠ "OPTIONS") :
    (handlerWithCORS req).status = 200 ∧
    (handlerWithCORS req).body = "Hello from Go API!" := by
  obtain ⟨m, p, o, a⟩ := req
  have hp2 : p = "/" := hp
  have hm1 : m ≠ "OPTIONS" := hm
  have hm2 : (m == "OPTIONS") = false := beq_eq_false_iff_ne.mpr hm1
  subst hp2
  simp [handlerWithCORS, corsMiddleware, hm2, defaultServeMux,
    (by decide : patternMatches rootPattern "/" = true), handler, helloBody]

/-- Witness for C1 at a concrete GET to the root path. -/
theorem root_request_hello_witness :
    (handlerWithCORS { method := "GET", path := "/", origin := none, accessControlRequestMethod := none }).status = 200 ∧
    (handlerWithCORS { method := "GET", path := "/", origin := none, accessControlRequestMethod := none }).body = "Hello from Go API!" :=
  root_request_hello
    { method := "GET", path := "/", origin := none, accessControlRequestMethod := none } rfl (by decide)

/-- C3: every response of the composed server handler carries the header
Access-Control-Allow-Origin with value star, and the response does not vary
with the requesting origin. -/
theorem allow_origin_star (req : HttpRequest) :
    headerValue (handlerWithCORS req).headers "Access-Control-Allow-Origin" = some "*" ∧
    ∀ o1 o2 : Option String,
      handlerWithCORS { req with origin := o1 }
        = handlerWithCORS { req with origin := o2 } := by
  obtain ⟨m, p, o, a⟩ := req
  have hstar : allowOriginValue corsOptions = "*" := by decide
  constructor
  · by_cases hb : (m == "OPTIONS") = true
    · simp [handlerWithCORS, corsMiddleware, hb, headerValue, hstar]
    · have hb2 : (m == "OPTIONS") = false := by simpa using hb
      simp [handlerWithCORS, corsMiddleware, hb2, headerValue, hstar]
  · intro o1 o2
    simp [handlerWithCORS, corsMiddleware, defaultServeMux, handler]

/-- C4: every OPTIONS pre-flight is answered with status 200, an empty body
and the configured allow headers, without invoking the wrapped application
handler; the allow-methods policy includes POST and the emitted
Access-Control-Allow-Methods header carries it. -/
theorem preflight_answered (req : HttpRequest) (hm : req.method = "OPTIONS") :
    (handlerWithCORS req).status = 200 ∧
    (handlerWithCORS req).body = "" ∧
    headerValue (handlerWithCORS req).headers "Access-Control-Allow-Methods"
      = some "GET, POST, PUT, DELETE, OPTIONS" ∧
    headerValue (handlerWithCORS req).headers "Access-Control-Allow-Headers"
      = some "Content-Type" ∧
    "POST" ∈ corsOptions.allowedMethods ∧
    ∀ inner1 inner2 : HttpRequest → HttpResponse,
      corsMiddleware corsOptions inner1 req = corsMiddleware corsOptions inner2 req := by
  have hb : (req.method == "OPTIONS") = true := by simp [hm]
  unfold handlerWithCORS
  refine ⟨?_, ?_, ?_, ?_, by decide, ?_⟩
  · unfold corsMiddleware; rw [if_pos hb]
  · unfold corsMiddleware; rw [if_pos hb]
  · unfold corsMiddleware; rw [if_pos hb]; decide
  · unfold corsMiddleware; rw [if_pos hb]; decide
  · intro inner1 inner2
    unfold corsMiddleware
    rw [if_pos hb, if_pos hb]

/-- Witness for C4 at a concrete pre-flight carrying
Access-Control-Request-Method POST. -/
theorem preflight_answered_witness :
    (handlerWithCORS { method := "OPTIONS", path := "/", origin := some "http://example.com", accessControlRequestMethod := some "POST" }).status = 200 ∧
    (handlerWithCORS { method := "OPTIONS", path := "/", origin := some "http://example.com", accessControlRequestMethod := some "POST" }).body = "" ∧
    headerValue (handlerWithCORS { method := "OPTIONS", path := "/", origin := some "http://example.com", accessControlRequestMethod := some "POST" }).headers "Access-Control-Allow-Methods"
      = some "GET, POST, PUT, DELETE, OPTIONS" ∧
    headerValue (handlerWithCORS { method := "OPTIONS", path := "/", origin := some "http://example.com", accessControlRequestMethod := some "POST" }).headers "Access-Control-Allow-Headers"
      = some "Content-Type" ∧
    "POST" ∈ corsOptions.allowedMethods ∧
    ∀ inner1 inner2 : HttpRequest → HttpResponse,
      corsMiddleware corsOptions inner1 { method := "OPTIONS", path := "/", origin := some "http://example.com", accessControlRequestMethod := some "POST" }
        = corsMiddleware corsOptions inner2 { method := "OPTIONS", path := "/", origin := some "http://example.com", accessControlRequestMethod := some "POST" } :=
  preflight_answered
    { method := "OPTIONS", path := "/", origin := some "http://example.com", accessControlRequestMethod := some "POST" } rfl

/-- C7: the handler is deterministic and stateless — any two requests, in any
order and on any replica, receive the identical response, whose body is the
constant text. -/
theorem handler_deterministic :
    (∀ r1 r2 : HttpRequest, handler r1 = handler r2) ∧
    (∀ r : HttpRequest, (handler r).body = "Hello from Go API!") :=
  ⟨fun _ _ => rfl, fun _ => rfl⟩

/-- C8: main listens on port 8080, the same port the backend service
descriptor declares as its port and targetPort under the logical name
go-api-service; the container port of the deployment agrees. -/
theorem listen_port_matches_service :
    listenAddr = ":" ++ toString listenPort ∧
    listenPort = 8080 ∧
    goApiService.name = "go-api-service" ∧
    goApiService.port = listenPort ∧
    goApiService.targetPort = listenPort ∧
    goApiDeployment.containerPort = listenPort :=
  ⟨by decide, rfl, rfl, rfl, rfl, rfl⟩

/-- C9: the single registration on the default mux uses the subtree pattern
"/", which matches every request path, so a request to any path beginning
with a slash reaches the handler: status 200, the constant body, never a
404. -/
theorem any_path_served (req : HttpRequest)
    (h : ("/".data.isPrefixOf req.path.data) = true) :
    patternMatches rootPattern req.path = true ∧
    defaultServeMux req = { status := 200, body := "Hello from Go API!", headers := [] } ∧
    (defaultServeMux req).status ≠ 404 := by
  have hp : patternMatches rootPattern req.path = true := by
    unfold patternMatches rootPattern
    rw [if_pos (by decide : ("/".data.getLast? == some '/') = true)]
    exact h
  refine ⟨hp, ?_, ?_⟩
  · unfold defaultServeMux
    rw [if_pos hp]
    rfl
  · unfold defaultServeMux
    rw [if_pos hp]
    show (200 : Nat) ≠ 404
    decide

/-- Witness for C9 at a concrete non-root path. -/
theorem any_path_served_witness :
    patternMatches rootPattern "/some/other/path" = true ∧
    defaultServeMux { method := "GET", path := "/some/other/path", origin := none, accessControlRequestMethod := none }
      = { status := 200, body := "Hello from Go API!", headers := [] } ∧
    (defaultServeMux { method := "GET", path := "/some/other/path", origin := none, accessControlRequestMethod := none }).status ≠ 404 :=
  any_path_served
    { method := "GET", path := "/some/other/path", origin := none, accessControlRequestMethod := none } (by decide)

/-- C2 counterexample: completing the single fetch with a non-2xx response
(status 500 here) does not leave Display State at the loading sentinel — the
body text is committed, because a fetch promise resolves on every HTTP
status and the then-chain reads and commits the text with no status check. -/
theorem non_ok_commits_body :
    (runApp initialAppState [AppEvent.render, AppEvent.complete (FetchOutcome.response 500 "Internal Server Error")]).message
      = "Internal Server Error" ∧
    (runApp initialAppState [AppEvent.render, AppEvent.complete (FetchOutcome.response 500 "Internal Server Error")]).message
      ≠ initialAppState.message := by
  exact ⟨by decide, by decide⟩

/-- C2 amended: for a fetch completion that is a rejection — a network error
or a browser-level timeout — Display State remains at the loading sentinel
and no retry is issued; a completion that is a resolved response, by
contrast, commits its body text to Display State whatever its status. -/
theorem rejected_fetch_keeps_loading (o : FetchOutcome)
    (h : o = FetchOutcome.networkError ∨ o = FetchOutcome.timeout) :
    (runApp initialAppState [AppEvent.render, AppEvent.complete o]).message = "" ∧
    (runApp initialAppState [AppEvent.render, AppEvent.complete o]).issued = 1 ∧
    ∀ st bd : _, (runApp initialAppState [AppEvent.render, AppEvent.complete (FetchOutcome.response st bd)]).message = bd := by
  rcases h with h | h <;> subst h <;>
    exact ⟨by decide, by decide, fun _ _ => rfl⟩

/-- Witness for the amended C2 at the network-error outcome. -/
theorem rejected_fetch_keeps_loading_witness :
    (runApp initialAppState [AppEvent.render, AppEvent.complete FetchOutcome.networkError]).message = "" ∧
    (runApp initialAppState [AppEvent.render, AppEvent.complete FetchOutcome.networkError]).issued = 1 ∧
    ∀ st bd : _, (runApp initialAppState [AppEvent.render, AppEvent.complete (FetchOutcome.response st bd)]).message = bd :=
  rejected_fetch_keeps_loading FetchOutcome.networkError (Or.inl rfl)

/-- C5: Display State begins at the loading sentinel and, on a session whose
single fetch completes against the live backend, transitions exactly once —
to exactly "Hello from Go API!" — and never transitions again for any
continuation of the session. -/
theorem display_state_single_assignment :
    initialAppState.message = "" ∧
    serverOutcome = FetchOutcome.response 200 "Hello from Go API!" ∧
    (runApp initialAppState [AppEvent.render]).message = "" ∧
    (runApp initialAppState [AppEvent.render, AppEvent.complete serverOutcome]).message
      = "Hello from Go API!" ∧
    ∀ evs : List AppEvent,
      (runApp (runApp initialAppState [AppEvent.render, AppEvent.complete serverOutcome]) evs).message
        = "Hello from Go API!" := by
  have h1 : runApp initialAppState [AppEvent.render, AppEvent.complete serverOutcome]
      = { message := "Hello from Go API!", effectRan := true, pending := 0, issued := 1 } := by
    decide
  refine ⟨rfl, by decide, by decide, ?_, ?_⟩
  · rw [h1]
  · intro evs
    rw [h1, runApp_settled _ rfl rfl evs]

/-- C6: per client session exactly one outbound GET is issued, at
initialization; at most one request is ever in flight and the request is
never repeated, whatever further renders or completions occur. -/
theorem single_fetch_per_session :
    fetchMethod = "GET" ∧
    (∀ evs : List AppEvent,
      (runApp initialAppState (AppEvent.render :: evs)).issued = 1) ∧
    (∀ evs : List AppEvent,
      (runApp initialAppState evs).pending ≤ 1 ∧ (runApp initialAppState evs).issued ≤ 1) := by
  refine ⟨rfl, ?_, ?_⟩
  · intro evs
    show (runApp (stepApp initialAppState AppEvent.render) evs).issued = 1
    have hs : stepApp initialAppState AppEvent.render
        = { message := "", effectRan := true, pending := 1, issued := 1 } := by decide
    rw [hs]
    exact (runApp_issued_stable _ rfl evs).1
  · intro evs
    have h := runApp_inv initialAppState ⟨Nat.zero_le 1, Nat.le_refl 0, fun _ => rfl⟩ evs
    exact ⟨h.2.1.trans h.1, h.1⟩

/-- C10: the loading sentinel is the empty string; the rendered view shows
the Loading placeholder on the empty string and shows the message itself on
every non-empty string; hence a successful fetch whose response body is
empty commits a state the viewer cannot distinguish from loading. -/
theorem empty_body_indistinguishable :
    initialAppState.message = "" ∧
    renderApp "" = "Loading..." ∧
    (∀ m : String, m ≠ "" → renderApp m = m) ∧
    (runApp initialAppState [AppEvent.render, AppEvent.complete (FetchOutcome.response 200 "")]).message = "" ∧
    renderApp (runApp initialAppState [AppEvent.render, AppEvent.complete (FetchOutcome.response 200 "")]).message
      = renderApp initialAppState.message := by
  refine ⟨rfl, by decide, ?_, by decide, by decide⟩
  intro m hm
  unfold renderApp
  rw [if_neg (by simpa using hm)]

/-- Witness for C10 at a concrete non-empty message. -/
theorem empty_body_indistinguishable_witness :
    renderApp "Hello from Go API!" = "Hello from Go API!" :=
  empty_body_indistinguishable.2.2.1 "Hello from Go API!" (by decide)
